import Mathlib

/-!
Verification model of the `LazyLoaderService` class found in
`src/src/app/lazy-loader.service.ts`.

The service keeps two memoization maps: `cache` (module URL to module
bundle, used by `load`/`unload`) and `loadedLibraries` (script URL to
script element, used by `loadJs`).  Handles are mutable JavaScript
objects held by reference both in the cache and by callers, so the
model uses a heap: bundles and script elements are allocated with
fresh numeric identities, reference equality is identity of those
numbers, and the service state maps identities to current field
values.

The host runtime (`SystemJsNgModuleLoader`, the injector, the DOM
document) is opaque to the service; its behaviour on a given module
URL is a parameter of type `String -> HostResult`, covering the three
cases visible to the service code: the asynchronous resolution
succeeds with a module factory, the returned promise rejects, or the
synchronous call itself throws (the only case the `try`/`catch` of
`load` can intercept).
-/

namespace LazyLoader

/-- Association-list lookup, the model of reading `m[k]` on a plain
JavaScript object used as a map. -/
def lookupKey {α β : Type} [DecidableEq α] : List (α × β) → α → Option β
  | [], _ => none
  | (a, v) :: rest, k => if a = k then some v else lookupKey rest k

/-- Replace the value stored at a key, the model of assigning to a
field of an object held by reference (in-place mutation of a heap
cell). -/
def updateKey {α β : Type} [DecidableEq α] : List (α × β) → α → β → List (α × β)
  | [], _, _ => []
  | (a, v) :: rest, k, w => if a = k then (k, w) :: rest else (a, v) :: updateKey rest k w

/-- Remove a key, the model of `delete m[k]` on a JavaScript object. -/
def eraseKey {α β : Type} [DecidableEq α] : List (α × β) → α → List (α × β)
  | [], _ => []
  | (a, v) :: rest, k => if a = k then eraseKey rest k else (a, v) :: eraseKey rest k

/-- Model of the class object reached through `moduleFactory.moduleType`:
the only field the service reads is the static `creatableComponents`
mapping from component name to component type (line 96).  `none` models
a module class that does not follow the convention, in which case
`Object.keys(undefined)` throws inside the `then` continuation. -/
structure ModuleType where
  creatableComponents : Option (List (String × String))
  deriving DecidableEq

/-- Model of the `NgModuleFactory` delivered by the host loader. -/
structure NgModuleFactory where
  moduleType : ModuleType
  deriving DecidableEq

/-- Behaviour of the host runtime's `this.loader.load(moduleURL)` call
for one module URL: resolve with a factory, reject the returned
promise, or throw synchronously. -/
inductive HostResult where
  | resolves : NgModuleFactory → HostResult
  | rejects : HostResult
  | throwsSync : HostResult
  deriving DecidableEq

/-- Model of one entry of the `compFactory` object built on lines
97-98: the component type together with the factory resolved from the
module instance (`moduleRef.componentFactoryResolver.resolveComponentFactory`),
identified here by the module instance it is bound to. -/
structure CompFactory where
  compType : String
  boundModuleRef : Nat
  deriving DecidableEq

/-- Current field values of one `moduleBundle` object (lines 101-111).
The `factory` field is `none` once `unload` has set it to `undefined`;
`unloaded` models the boolean flag `unload` adds (absent, hence falsy,
before the first `unload`). -/
structure BundleData where
  name : String
  url : String
  factory : Option (List (String × CompFactory))
  moduleRef : Nat
  moduleType : ModuleType
  unloaded : Bool
  deriving DecidableEq

/-- State of one `LazyLoaderService` instance: the `cache` and
`loadedLibraries` maps of the class, plus the heap of allocated
bundle objects, module instances (tracked only as destroyed-or-not)
and script elements, with allocation counters giving every object a
fresh identity. `scripts` is the list of script elements appended to
`document.body`, in order, as pairs of identity and `src`. -/
structure ServiceState where
  cache : List (String × Nat)
  bundles : List (Nat × BundleData)
  nextId : Nat
  nextRefId : Nat
  destroyedRefs : List Nat
  loadedLibraries : List (String × Nat)
  scripts : List (Nat × String)
  nextScriptId : Nat
  deriving DecidableEq

/-- Freshly constructed service: both maps empty, nothing allocated. -/
def initState : ServiceState :=
  { cache := [], bundles := [], nextId := 0, nextRefId := 0,
    destroyedRefs := [], loadedLibraries := [], scripts := [], nextScriptId := 0 }

/-- Line 83: the composite cache key `moduleFilename + "#" + moduleName`. -/
def mkModuleURL (moduleName moduleFilename : String) : String :=
  moduleFilename ++ "#" ++ moduleName

/-- Lines 96-98: turn the module's `creatableComponents` mapping into
the `compFactory` object, each entry holding the component type and a
factory bound to the freshly created module instance. -/
def buildCompFactory (entryComponents : List (String × String)) (moduleRef : Nat) :
    List (String × CompFactory) :=
  entryComponents.map (fun kv => (kv.1, { compType := kv.2, boundModuleRef := moduleRef }))

/-- Settlement status of the promise returned by `load`: resolved with
a bundle identity or with `undefined`, rejected, or never settled. -/
inductive LoadOutcome where
  | resolved : Option Nat → LoadOutcome
  | rejected : LoadOutcome
  | pending : LoadOutcome
  deriving DecidableEq

/-- Model of `LazyLoaderService.load` (lines 82-120), as the outcome of
the returned promise together with the service state after the whole
asynchronous interaction has run to quiescence.

Branches, in the order the code takes them:
one, `this.loader.load` throws synchronously: the `catch` runs
`rs(undefined)` (lines 116-118);
two, the host promise rejects: the `then` has no rejection handler and
the outer executor has already returned, so neither `rs` nor `rj` is
ever called and the promise stays pending;
three, the host resolves and the key is already cached: `rs` with the
cached bundle, no state change (lines 88-89, before `moduleFactory.create`);
four, the host resolves, the key is not cached, and the module class
has no `creatableComponents`: `moduleFactory.create(this.inj)` has
already run (line 92, allocating a module instance) and then
`Object.keys(undefined)` throws inside the continuation, settling
nothing;
five, the normal path: allocate the module instance, build
`compFactory`, allocate the bundle, store it in the cache, resolve
with it (lines 92-114). -/
def load (host : String → HostResult) (s : ServiceState)
    (moduleName moduleFilename : String) : LoadOutcome × ServiceState :=
  match host (mkModuleURL moduleName moduleFilename) with
  | HostResult.throwsSync => (LoadOutcome.resolved none, s)
  | HostResult.rejects => (LoadOutcome.pending, s)
  | HostResult.resolves moduleFactory =>
    match lookupKey s.cache (mkModuleURL moduleName moduleFilename) with
    | some cached => (LoadOutcome.resolved (some cached), s)
    | none =>
      match moduleFactory.moduleType.creatableComponents with
      | none => (LoadOutcome.pending, { s with nextRefId := s.nextRefId + 1 })
      | some entryComponents =>
        (LoadOutcome.resolved (some s.nextId),
          { s with
            cache := (mkModuleURL moduleName moduleFilename, s.nextId) :: s.cache,
            bundles := (s.nextId,
              { name := moduleName,
                url := mkModuleURL moduleName moduleFilename,
                factory := some (buildCompFactory entryComponents s.nextRefId),
                moduleRef := s.nextRefId,
                moduleType := moduleFactory.moduleType,
                unloaded := false }) :: s.bundles,
            nextId := s.nextId + 1,
            nextRefId := s.nextRefId + 1 })

/-- Model of `LazyLoaderService.unload` (lines 126-135).  The argument
is the identity of the bundle object the caller passes.  If
`this.cache[moduleBundle.url]` is present, the bundle object is
mutated in place (name suffixed, `unloaded` set, `factory` deleted and
set to `undefined`), `moduleRef.destroy()` is recorded, and the cache
entry for that url is deleted; otherwise nothing happens. -/
def unload (s : ServiceState) (bundleId : Nat) : ServiceState :=
  match lookupKey s.bundles bundleId with
  | none => s
  | some moduleBundle =>
    match lookupKey s.cache moduleBundle.url with
    | none => s
    | some _ =>
      { s with
        bundles := updateKey s.bundles bundleId
          { moduleBundle with
            name := moduleBundle.name ++ "-unloaded",
            unloaded := true,
            factory := none },
        destroyedRefs := moduleBundle.moduleRef :: s.destroyedRefs,
        cache := eraseKey s.cache moduleBundle.url }

/-- Result of one `moduleBundle.create(componentType, viewRef)` call
(line 108): the component was created by
`viewRef.createComponent(factory)` and attached under that container,
or by `factory.create(this.inj)` unattached with the loader's
injector, or `compFactory[componentType]` was `undefined` and reading
`.factory` on it raised an uncaught TypeError. -/
inductive CreateResult where
  | attached : Nat → CompFactory → CreateResult
  | unattached : CompFactory → Nat → CreateResult
  | typeError : CreateResult
  deriving DecidableEq

/-- Model of the `create` closure of a bundle (line 108).
`compFactory` is the object captured by the closure, `inj` the
loader's injector, `viewRef` the optional container argument. -/
def bundleCreate (compFactory : List (String × CompFactory)) (inj : Nat)
    (componentType : String) (viewRef : Option Nat) : CreateResult :=
  match viewRef with
  | some vr =>
    match lookupKey compFactory componentType with
    | none => CreateResult.typeError
    | some cf => CreateResult.attached vr cf
  | none =>
    match lookupKey compFactory componentType with
    | none => CreateResult.typeError
    | some cf => CreateResult.unattached cf inj

/-- Value returned by one `loadJs` call.  The code always evaluates
`return new Promise(...)`, so the only possible returns are promises:
one that resolves with a given script element once that element's
load event fires, or — on a cache hit, where the executor returns the
cached element and that return value is discarded by the `Promise`
constructor — one on which neither `rs` nor `rj` is ever called.  The
`bareValue` constructor stands for the call returning a script element
itself rather than a promise; no branch of the code produces it. -/
inductive JsReturn where
  | bareValue : Nat → JsReturn
  | promisePendingForever : JsReturn
  | promisePendingOnScript : Nat → JsReturn
  deriving DecidableEq

/-- Model of `LazyLoaderService.loadJs` (lines 156-171), up to but not
including the browser firing the script's load event.  Cache hit:
the executor returns the cached element (discarded), no element is
created, the returned promise can never settle (lines 158-160).
Cache miss: a fresh script element with `src = url` is created and
appended to `document.body`, and the returned promise will resolve
with that element when its load event fires (lines 162-169). -/
def loadJs (s : ServiceState) (url : String) : JsReturn × ServiceState :=
  match lookupKey s.loadedLibraries url with
  | some _ => (JsReturn.promisePendingForever, s)
  | none =>
    (JsReturn.promisePendingOnScript s.nextScriptId,
      { s with
        scripts := s.scripts ++ [(s.nextScriptId, url)],
        nextScriptId := s.nextScriptId + 1 })

/-- Model of the `script.onload` handler created by a `loadJs(url)`
call for script element `scriptId` (lines 164-167): store the element
in `loadedLibraries[url]` and resolve that call's promise with the
element. -/
def scriptOnload (s : ServiceState) (url : String) (scriptId : Nat) : ServiceState × Nat :=
  ({ s with loadedLibraries := (url, scriptId) :: eraseKey s.loadedLibraries url }, scriptId)

/-! Concrete fixtures used to exercise the model on the scenarios the
specification describes. -/

/-- The module class of the spec scenario: one creatable component. -/
def lazyModuleType : ModuleType :=
  { creatableComponents := some [("LazyComponent", "LazyComponent")] }

/-- Host runtime that resolves the key of the spec scenario and
rejects every other key. -/
def hostLazy : String → HostResult := fun u =>
  if u = "bundle/lazy.module#Lazy" then HostResult.resolves { moduleType := lazyModuleType }
  else HostResult.rejects

/-- Host runtime whose asynchronous resolution always fails (the
returned promise rejects). -/
def hostAlwaysRejects : String → HostResult := fun _ => HostResult.rejects

/-- Host runtime whose `load` call always throws synchronously. -/
def hostAlwaysThrows : String → HostResult := fun _ => HostResult.throwsSync

/-- Service state after `load("Lazy", "bundle/lazy.module")` has
resolved on a fresh service. -/
def sLazy : ServiceState := (load hostLazy initState "Lazy" "bundle/lazy.module").2

/-- Field values of the bundle object that `load` allocates in the
spec scenario (identity 0 in `sLazy`). -/
def bLazy : BundleData :=
  { name := "Lazy",
    url := "bundle/lazy.module#Lazy",
    factory := some (buildCompFactory [("LazyComponent", "LazyComponent")] 0),
    moduleRef := 0,
    moduleType := lazyModuleType,
    unloaded := false }

/-- Script URL of the spec's duplicate-injection scenario. -/
def cdnUrl : String := "https://cdn/a.js"

/-- Service state in which `loadJs "https://cdn/a.js"` has completed
successfully once: the script was appended and its load event fired,
caching element 0. -/
def sScriptCached : ServiceState :=
  (scriptOnload (loadJs initState cdnUrl).2 cdnUrl 0).1

/-! Basic lemmas about the map operations. -/

/-- Looking a key up right after consing it finds the new value. -/
theorem lookupKey_cons_self {α β : Type} [DecidableEq α] (m : List (α × β)) (k : α) (v : β) :
    lookupKey ((k, v) :: m) k = some v := by
  simp [lookupKey]

/-- Erasing a key really removes it from the map. -/
theorem lookupKey_eraseKey {α β : Type} [DecidableEq α] (m : List (α × β)) (k : α) :
    lookupKey (eraseKey m k) k = none := by
  induction m with
  | nil => rfl
  | cons p rest ih =>
    obtain ⟨a, v⟩ := p
    by_cases hk : a = k
    · simpa [eraseKey, hk] using ih
    · simpa [eraseKey, lookupKey, hk] using ih

/-- Updating a present key stores the new value at that key. -/
theorem lookupKey_updateKey {α β : Type} [DecidableEq α] (m : List (α × β)) (k : α) (v w : β)
    (h : lookupKey m k = some v) : lookupKey (updateKey m k w) k = some w := by
  induction m with
  | nil => simp [lookupKey] at h
  | cons p rest ih =>
    obtain ⟨a, u⟩ := p
    by_cases hk : a = k
    · simp [updateKey, lookupKey, hk]
    · simp [updateKey, lookupKey, hk] at h ⊢
      exact ih h

/-- A name outside the keys of the declared mapping is absent from the
built `compFactory` object. -/
theorem lookupKey_buildCompFactory_none (decls : List (String × String)) (moduleRef : Nat)
    (componentType : String) (h : componentType ∉ decls.map Prod.fst) :
    lookupKey (buildCompFactory decls moduleRef) componentType = none := by
  induction decls with
  | nil => rfl
  | cons p rest ih =>
    obtain ⟨a, t⟩ := p
    simp only [List.map_cons, List.mem_cons, not_or] at h
    simp only [buildCompFactory, List.map_cons, lookupKey]
    rw [if_neg (Ne.symm h.1)]
    exact ih h.2

/-! Claim theorems. -/

/-- C1: for two `load(moduleName, moduleFilename)` calls issued
sequentially with the same pair, the second call resolves with the
identical module bundle object (same heap identity) as the first:
whenever the first call resolved with some handle, the handle is in
the cache under the composite key, so the second call's continuation
returns it from the cache (lines 88-89). -/
theorem load_sequential_same_handle (host : String → HostResult) (s : ServiceState)
    (moduleName moduleFilename : String) (handleId : Nat)
    (h1 : (load host s moduleName moduleFilename).1 = LoadOutcome.resolved (some handleId)) :
    (load host (load host s moduleName moduleFilename).2 moduleName moduleFilename).1
      = LoadOutcome.resolved (some handleId) := by
  cases hh : host (mkModuleURL moduleName moduleFilename) with
  | throwsSync => simp [load, hh] at h1
  | rejects => simp [load, hh] at h1
  | resolves fac =>
    cases hc : lookupKey s.cache (mkModuleURL moduleName moduleFilename) with
    | some cached =>
      simp [load, hh, hc] at h1 ⊢
      exact h1
    | none =>
      cases hcc : fac.moduleType.creatableComponents with
      | none => simp [load, hh, hc, hcc] at h1
      | some decls =>
        simp [load, hh, hc, hcc, lookupKey] at h1 ⊢
        exact h1

/-- C1 witness: on a fresh service, loading the spec scenario's module
twice resolves the second time with the bundle allocated by the first
call (identity 0). -/
theorem load_sequential_same_handle_witness :
    (load hostLazy (load hostLazy initState "Lazy" "bundle/lazy.module").2
        "Lazy" "bundle/lazy.module").1 = LoadOutcome.resolved (some 0) :=
  load_sequential_same_handle hostLazy initState "Lazy" "bundle/lazy.module" 0 (by decide)

/-- C2 counterexample: when the host runtime's asynchronous resolution
fails (the host promise rejects), `load` does not resolve with
`undefined` — its promise stays pending forever, because the `then`
continuation installs no rejection handler and the `catch` around the
synchronous call cannot see an asynchronous rejection. -/
theorem load_async_failure_not_undefined :
    (load hostAlwaysRejects initState "A" "f").1 ≠ LoadOutcome.resolved none := by
  decide

/-- C2 amended: only a synchronous throw of the host loader makes
`load` resolve with `undefined` (lines 116-118); when the asynchronous
call fails, the promise returned by `load` never settles.  In neither
case does it reject, so no exception ever propagates to a caller that
awaits it. -/
theorem load_failure_modes (host : String → HostResult) (s : ServiceState)
    (moduleName moduleFilename : String) :
    (host (mkModuleURL moduleName moduleFilename) = HostResult.throwsSync →
      (load host s moduleName moduleFilename).1 = LoadOutcome.resolved none)
    ∧ (host (mkModuleURL moduleName moduleFilename) = HostResult.rejects →
      (load host s moduleName moduleFilename).1 = LoadOutcome.pending) := by
  constructor
  · intro h; simp [load, h]
  · intro h; simp [load, h]

/-- C2 witness: the two failure modes at concrete hosts — a
synchronously throwing host makes `load` resolve `undefined`, a
rejecting host leaves the promise pending. -/
theorem load_failure_modes_witness :
    (load hostAlwaysThrows initState "A" "f").1 = LoadOutcome.resolved none
    ∧ (load hostAlwaysRejects initState "A" "f").1 = LoadOutcome.pending :=
  ⟨(load_failure_modes hostAlwaysThrows initState "A" "f").1 rfl,
   (load_failure_modes hostAlwaysRejects initState "A" "f").2 rfl⟩

/-- C10: on every control path of `load` — any host behaviour, any
state, any arguments — the promise's `rj` callback is never invoked:
the outcome is never `rejected`, so awaiting `load` can never throw. -/
theorem load_never_invokes_reject (host : String → HostResult) (s : ServiceState)
    (moduleName moduleFilename : String) :
    (load host s moduleName moduleFilename).1 ≠ LoadOutcome.rejected := by
  unfold load
  cases host (mkModuleURL moduleName moduleFilename) with
  | throwsSync => simp
  | rejects => simp
  | resolves fac =>
    cases lookupKey s.cache (mkModuleURL moduleName moduleFilename) with
    | some cached => simp
    | none =>
      cases hcc : fac.moduleType.creatableComponents <;> simp [hcc]

/-- Helper: when the cache holds no entry for the bundle's url,
`unload` changes nothing (the guard on line 127 fails). -/
theorem unload_of_cache_absent (s : ServiceState) (bundleId : Nat) (b : BundleData)
    (hb : lookupKey s.bundles bundleId = some b)
    (hc : lookupKey s.cache b.url = none) :
    unload s bundleId = s := by
  simp [unload, hb, hc]

/-- Helper: the explicit shape of the state produced by `unload` when
the bundle's cache entry is present. -/
theorem unload_eq_of_cached (s : ServiceState) (bundleId : Nat) (b : BundleData) (cachedId : Nat)
    (hb : lookupKey s.bundles bundleId = some b)
    (hc : lookupKey s.cache b.url = some cachedId) :
    unload s bundleId =
      { s with
        bundles := updateKey s.bundles bundleId
          { b with name := b.name ++ "-unloaded", unloaded := true, factory := none },
        destroyedRefs := b.moduleRef :: s.destroyedRefs,
        cache := eraseKey s.cache b.url } := by
  simp [unload, hb, hc]

/-- C4: for a handle whose cache key is still present, `unload`
appends the `-unloaded` suffix to its name, sets its `unloaded` flag,
records the destruction of its module instance, clears its `factory`
field, and removes the cache entry for its url. -/
theorem unload_behavior (s : ServiceState) (bundleId : Nat) (b : BundleData) (cachedId : Nat)
    (hb : lookupKey s.bundles bundleId = some b)
    (hc : lookupKey s.cache b.url = some cachedId) :
    lookupKey (unload s bundleId).bundles bundleId
      = some { b with name := b.name ++ "-unloaded", unloaded := true, factory := none }
    ∧ b.moduleRef ∈ (unload s bundleId).destroyedRefs
    ∧ lookupKey (unload s bundleId).cache b.url = none := by
  rw [unload_eq_of_cached s bundleId b cachedId hb hc]
  exact ⟨lookupKey_updateKey _ _ _ _ hb, List.mem_cons_self _ _, lookupKey_eraseKey _ _⟩

/-- C4 witness: in the spec scenario the handle's name is `Lazy`
before `unload` and `Lazy-unloaded` with `unloaded = true` after, the
module instance is destroyed, the factory mapping is gone, and the
cache entry is removed. -/
theorem unload_behavior_witness :
    bLazy.name = "Lazy"
    ∧ (lookupKey (unload sLazy 0).bundles 0
        = some { bLazy with name := bLazy.name ++ "-unloaded", unloaded := true, factory := none }
      ∧ bLazy.moduleRef ∈ (unload sLazy 0).destroyedRefs
      ∧ lookupKey (unload sLazy 0).cache bLazy.url = none) :=
  ⟨by decide, unload_behavior sLazy 0 bLazy 0 (by decide) (by decide)⟩

/-- C9: after a first `unload` of a cached handle, a second `unload`
of the same handle is a no-op — the cache entry for the handle's url
is already absent (and `unload` never changed the url field), so the
guard fails and the state, the handle's fields included, is returned
unchanged; no name is re-suffixed and no second destroy happens. -/
theorem unload_twice_noop (s : ServiceState) (bundleId : Nat) (b : BundleData) (cachedId : Nat)
    (hb : lookupKey s.bundles bundleId = some b)
    (hc : lookupKey s.cache b.url = some cachedId) :
    unload (unload s bundleId) bundleId = unload s bundleId := by
  have hs := unload_eq_of_cached s bundleId b cachedId hb hc
  have h1 : lookupKey (unload s bundleId).bundles bundleId
      = some { b with name := b.name ++ "-unloaded", unloaded := true, factory := none } := by
    rw [hs]; exact lookupKey_updateKey _ _ _ _ hb
  have h2 : lookupKey (unload s bundleId).cache b.url = none := by
    rw [hs]; exact lookupKey_eraseKey _ _
  exact unload_of_cache_absent _ _ _ h1 h2

/-- C9 witness: unloading the spec scenario's handle twice equals
unloading it once. -/
theorem unload_twice_noop_witness :
    unload (unload sLazy 0) 0 = unload sLazy 0 :=
  unload_twice_noop sLazy 0 bLazy 0 (by decide) (by decide)

/-- C8: after `unload` of a cached handle, a `load` with the same
`(moduleName, moduleFilename)` pair resolves with a freshly allocated
bundle, distinct (as a heap object) from the unloaded handle, because
the cache entry was actually removed. -/
theorem load_after_unload_distinct (host : String → HostResult) (s : ServiceState)
    (bundleId : Nat) (b : BundleData) (cachedId : Nat) (fac : NgModuleFactory)
    (decls : List (String × String)) (moduleName moduleFilename : String)
    (hb : lookupKey s.bundles bundleId = some b)
    (hurl : b.url = mkModuleURL moduleName moduleFilename)
    (hc : lookupKey s.cache b.url = some cachedId)
    (hid : bundleId < s.nextId)
    (hh : host (mkModuleURL moduleName moduleFilename) = HostResult.resolves fac)
    (hcc : fac.moduleType.creatableComponents = some decls) :
    (load host (unload s bundleId) moduleName moduleFilename).1
      = LoadOutcome.resolved (some s.nextId)
    ∧ s.nextId ≠ bundleId := by
  have hs := unload_eq_of_cached s bundleId b cachedId hb hc
  have hnone : lookupKey (unload s bundleId).cache (mkModuleURL moduleName moduleFilename)
      = none := by
    rw [hs, ← hurl]; exact lookupKey_eraseKey _ _
  have hnext : (unload s bundleId).nextId = s.nextId := by rw [hs]
  exact ⟨by simp [load, hh, hnone, hcc, hnext], (Nat.ne_of_lt hid).symm⟩

/-- C8 witness: in the spec scenario, reloading after `unload`
resolves with bundle identity 1, distinct from the original handle's
identity 0. -/
theorem load_after_unload_distinct_witness :
    (load hostLazy (unload sLazy 0) "Lazy" "bundle/lazy.module").1
      = LoadOutcome.resolved (some 1)
    ∧ (1 : Nat) ≠ 0 :=
  load_after_unload_distinct hostLazy sLazy 0 bLazy 0 { moduleType := lazyModuleType }
    [("LazyComponent", "LazyComponent")] "Lazy" "bundle/lazy.module"
    (by decide) (by decide) (by decide) (by decide) (by decide) (by decide)

/-- C5: asking `create` for a component name absent from the module's
declared `creatableComponents` mapping is a hard runtime failure — the
lookup yields `undefined` and reading `.factory` on it raises an
uncaught TypeError — whether or not a container is supplied; it never
silently succeeds. -/
theorem create_absent_component_fails (decls : List (String × String)) (moduleRef inj : Nat)
    (componentType : String) (viewRef : Option Nat)
    (h : componentType ∉ decls.map Prod.fst) :
    bundleCreate (buildCompFactory decls moduleRef) inj componentType viewRef
      = CreateResult.typeError := by
  have hl := lookupKey_buildCompFactory_none decls moduleRef componentType h
  cases viewRef <;> simp [bundleCreate, hl]

/-- C5 witness: asking the spec scenario's module for a component it
never declared fails hard. -/
theorem create_absent_component_fails_witness :
    bundleCreate (buildCompFactory [("LazyComponent", "LazyComponent")] 0) 7
        "MissingComponent" none = CreateResult.typeError :=
  create_absent_component_fails [("LazyComponent", "LazyComponent")] 0 7
    "MissingComponent" none (by decide)

/-- C6: for a component name the module declares, `create` with a
container instantiates the component through that container
(`viewRef.createComponent`), attached under it; `create` without a
container instantiates it directly from the bound factory
(`factory.create(this.inj)`), unattached and bound to the loader's
injector. -/
theorem create_container_dispatch (decls : List (String × String)) (moduleRef inj : Nat)
    (componentType : String) (cf : CompFactory)
    (h : lookupKey (buildCompFactory decls moduleRef) componentType = some cf) :
    (∀ containerRef : Nat,
      bundleCreate (buildCompFactory decls moduleRef) inj componentType (some containerRef)
        = CreateResult.attached containerRef cf)
    ∧ bundleCreate (buildCompFactory decls moduleRef) inj componentType none
      = CreateResult.unattached cf inj :=
  ⟨fun containerRef => by simp [bundleCreate, h], by simp [bundleCreate, h]⟩

/-- C6 witness: creating the declared component with container 5 gives
an attached component under 5; creating it without a container gives
an unattached component bound to injector 7. -/
theorem create_container_dispatch_witness :
    bundleCreate (buildCompFactory [("LazyComponent", "LazyComponent")] 0) 7
        "LazyComponent" (some 5)
      = CreateResult.attached 5 { compType := "LazyComponent", boundModuleRef := 0 }
    ∧ bundleCreate (buildCompFactory [("LazyComponent", "LazyComponent")] 0) 7
        "LazyComponent" none
      = CreateResult.unattached { compType := "LazyComponent", boundModuleRef := 0 } 7 :=
  ⟨(create_container_dispatch [("LazyComponent", "LazyComponent")] 0 7 "LazyComponent"
      { compType := "LazyComponent", boundModuleRef := 0 } (by decide)).1 5,
   (create_container_dispatch [("LazyComponent", "LazyComponent")] 0 7 "LazyComponent"
      { compType := "LazyComponent", boundModuleRef := 0 } (by decide)).2⟩

/-- C3 counterexample: after a successful first `loadJs` of the cdn
url (element 0 cached), a repeat call does not return the cached
script element itself — the code evaluates `return new Promise(...)`
unconditionally, so the caller receives a promise, and the `return` of
the cached element inside the executor is discarded. -/
theorem loadJs_cached_not_bare_value :
    (loadJs sScriptCached cdnUrl).1 ≠ JsReturn.bareValue 0 := by
  decide

/-- C3 amended: after a successful first `loadJs(url)`, a repeat call
returns a fresh promise on which neither resolve nor reject is ever
invoked — the cached element is only the executor's (discarded) return
value — and the state is unchanged: no new script element is appended. -/
theorem loadJs_cached_pending (s : ServiceState) (url : String) (scriptId : Nat)
    (h : lookupKey s.loadedLibraries url = some scriptId) :
    loadJs s url = (JsReturn.promisePendingForever, s) := by
  simp [loadJs, h]

/-- C3 witness: the repeat call on the concrete cached state yields
the forever-pending promise and leaves the state untouched. -/
theorem loadJs_cached_pending_witness :
    loadJs sScriptCached cdnUrl = (JsReturn.promisePendingForever, sScriptCached) :=
  loadJs_cached_pending sScriptCached cdnUrl 0 (by decide)

/-- C7 counterexample: two `loadJs` calls for the cdn url in the same
tick (the second before any load event) append two script elements
with that src to the document body, not exactly one — the cache is
only written by the `onload` handler, so the second call misses it. -/
theorem loadJs_same_tick_two_scripts :
    ((loadJs (loadJs initState cdnUrl).2 cdnUrl).2.scripts.filter
        (fun p => p.2 == cdnUrl)).length ≠ 1 := by
  decide

/-- C7 amended: two `loadJs(url)` calls in the same tick each miss the
cache, so each appends its own script element with `src = url` (two in
total) and each call's promise resolves with its own, distinct script
element. -/
theorem loadJs_same_tick_duplicates (s : ServiceState) (url : String)
    (h : lookupKey s.loadedLibraries url = none) :
    (loadJs s url).1 = JsReturn.promisePendingOnScript s.nextScriptId
    ∧ (loadJs (loadJs s url).2 url).1 = JsReturn.promisePendingOnScript (s.nextScriptId + 1)
    ∧ s.nextScriptId ≠ s.nextScriptId + 1
    ∧ (loadJs (loadJs s url).2 url).2.scripts
      = s.scripts ++ [(s.nextScriptId, url), (s.nextScriptId + 1, url)] :=
  ⟨by simp [loadJs, h], by simp [loadJs, h], by omega, by simp [loadJs, h]⟩

/-- C7 witness: on a fresh service, the two same-tick calls for the
cdn url produce promises of elements 0 and 1 and leave two appended
script elements. -/
theorem loadJs_same_tick_duplicates_witness :
    (loadJs initState cdnUrl).1 = JsReturn.promisePendingOnScript 0
    ∧ (loadJs (loadJs initState cdnUrl).2 cdnUrl).1 = JsReturn.promisePendingOnScript 1
    ∧ (0 : Nat) ≠ 1
    ∧ (loadJs (loadJs initState cdnUrl).2 cdnUrl).2.scripts
      = [(0, cdnUrl), (1, cdnUrl)] :=
  loadJs_same_tick_duplicates initState cdnUrl rfl

end LazyLoader
